import Mathlib

/-
Verification development for the portable knowledge-management MCP bridge
(JavaScript sources: the portable MCP server, the standalone client, the
shared configuration module, and the tool handlers).  JavaScript strings are
embedded as lists of characters, JSON values as an inductive type, and each
relevant source function as an executable Lean definition mirroring its
control flow.  Machine effects (fetch, waiting, event emission) are made
explicit: functions return traces of the HTTP calls they issue, the delays
they schedule and the events they emit.
-/

namespace PortableMcp

/-- JavaScript strings, embedded as lists of characters. -/
abbrev Str := List Char

/-- Convert a Lean string literal to the embedded string type. -/
def str (s : String) : Str := s.data

/-- JSON values, as produced by parsing request/response bodies. -/
inductive Json where
  | jstr : Str → Json
  | jnum : Int → Json
  | jbool : Bool → Json
  | jnull : Json
  | jobj : List (Str × Json) → Json
  | jarr : List Json → Json
deriving Repr

mutual

/-- Structural boolean equality on JSON values (JavaScript strict equality is
only ever applied to primitive values in the embedded code, where it agrees
with structural equality). -/
def Json.beq : Json → Json → Bool
  | .jstr a, .jstr b => a == b
  | .jnum a, .jnum b => a == b
  | .jbool a, .jbool b => a == b
  | .jnull, .jnull => true
  | .jobj a, .jobj b => Json.beqFields a b
  | .jarr a, .jarr b => Json.beqList a b
  | _, _ => false

/-- Pointwise equality of JSON object field lists. -/
def Json.beqFields : List (Str × Json) → List (Str × Json) → Bool
  | [], [] => true
  | (k₁, v₁) :: t₁, (k₂, v₂) :: t₂ => k₁ == k₂ && Json.beq v₁ v₂ && Json.beqFields t₁ t₂
  | _, _ => false

/-- Pointwise equality of JSON arrays. -/
def Json.beqList : List Json → List Json → Bool
  | [], [] => true
  | a :: t₁, b :: t₂ => Json.beq a b && Json.beqList t₁ t₂
  | _, _ => false

end

instance : BEq Json := ⟨Json.beq⟩

/-- Field lookup on a JSON value: JavaScript property access `v[k]`, which is
`undefined` (here `none`) on anything that is not an object with that key.
Property access on `null` is a separate, throwing case handled at use sites. -/
def Json.get (j : Json) (k : Str) : Option Json :=
  match j with
  | .jobj kvs => kvs.lookup k
  | _ => none

/-- JavaScript truthiness for an optional JSON value (`undefined` ↦ `none`). -/
def truthyJson : Option Json → Bool
  | none => false
  | some .jnull => false
  | some (.jstr s) => !s.isEmpty
  | some (.jnum n) => n ≠ 0
  | some (.jbool b) => b
  | some (.jobj _) => true
  | some (.jarr _) => true

/-- JavaScript truthiness for an optional string (`undefined` or `""` are falsy). -/
def truthyStr : Option Str → Bool
  | none => false
  | some s => !s.isEmpty

/-- Decimal rendering of a natural number, used for string interpolation. -/
def natStr (n : Nat) : Str := (Nat.repr n).data

/-- Decimal rendering of an integer, used for string interpolation. -/
def intStr (i : Int) : Str := (Int.repr i).data

/-- JavaScript string coercion of a JSON value, as in template literals. -/
def jsToString : Json → Str
  | .jstr s => s
  | .jnum i => intStr i
  | .jbool b => if b then str "true" else str "false"
  | .jnull => str "null"
  | .jobj _ => str "[object Object]"
  | .jarr _ => str "[object Array]"

/-- `String.prototype.split('-')`: split on every dash, keeping empty pieces;
the empty string yields one empty piece, as in JavaScript. -/
def splitDash : Str → List Str
  | [] => [[]]
  | c :: cs =>
    if c = '-' then [] :: splitDash cs
    else
      match splitDash cs with
      | [] => [[c]]
      | g :: gs => (c :: g) :: gs

/-- `String.prototype.indexOf('-')`: position of the first dash, `-1` if none. -/
def firstDashIdx : Str → Int
  | [] => -1
  | c :: cs =>
    if c = '-' then 0
    else if firstDashIdx cs < 0 then -1 else firstDashIdx cs + 1

/-- `String.prototype.lastIndexOf('-')`: position of the last dash, `-1` if none. -/
def lastDashIdx : Str → Int
  | [] => -1
  | c :: cs =>
    if 0 ≤ lastDashIdx cs then lastDashIdx cs + 1
    else if c = '-' then 0 else -1

/-- `String.prototype.substring(a, b)`: clamps both indices into `[0, length]`
and swaps them when given in reverse order. -/
def jsSubstring (s : Str) (a b : Int) : Str :=
  (s.take (max (min (max a 0).toNat s.length) (min (max b 0).toNat s.length))).drop
    (min (min (max a 0).toNat s.length) (min (max b 0).toNat s.length))

/-- The portable server's `extractProjectFromApiKey` (part_000, lines 79–91):
returns the second dash-delimited segment when the key has at least three
segments, otherwise `null`. -/
def extractProjectFromApiKey (apiKey : Option Str) : Option Str :=
  if !truthyStr apiKey then none
  else
    let parts := splitDash (apiKey.getD [])
    if parts.length ≥ 3 then some (parts.getD 1 []) else none

/-- The portable server's constructor logic resolving the current project
(part_000, lines 57–62): explicit project id if truthy, else the extracted
segment; throws when neither is truthy. -/
def serverResolveProject (projectId apiKey : Option Str) : Except Str Str :=
  let cur := if truthyStr projectId then projectId else extractProjectFromApiKey apiKey
  if truthyStr cur then .ok (cur.getD [])
  else .error (str "No valid project found. Set PROJECT_ID or use API key format: role-project-secret")

/-- The client's `getProjectFromApiKey` (part_001, lines 335–360): explicit
project id wins; a missing key throws; with at least three segments it takes
the substring strictly between the first and last dash (falling back to the
second segment); with fewer segments it returns the literal `"default"`. -/
def getProjectFromApiKey (projectId apiKey : Option Str) : Except Str Str :=
  if truthyStr projectId then .ok (projectId.getD [])
  else if !truthyStr apiKey then .error (str "No API key configured")
  else
    let k := apiKey.getD []
    let parts := splitDash k
    if parts.length ≥ 3 then
      let firstIdx := firstDashIdx k
      let lastIdx := lastDashIdx k
      if firstIdx ≠ lastIdx ∧ firstIdx ≥ 0 then
        .ok (jsSubstring k (firstIdx + 1) lastIdx)
      else
        .ok (parts.getD 1 [])
    else
      .ok (str "default")

/-- The specification's project decomposition: the substring strictly between
the first and the last dash of the credential. -/
def specProjectOfCredential (k : Str) : Str :=
  jsSubstring k (firstDashIdx k + 1) (lastDashIdx k)

deriving instance DecidableEq for Except

/-- Substring test: `hay.includes(needle)` from JavaScript. -/
def containsSub (needle : Str) : Str → Bool
  | [] => needle.isEmpty
  | c :: t => needle.isPrefixOf (c :: t) || containsSub needle t

/-- HTTP settings from the configuration module (part_002): request timeout,
retry count and retry base delay. -/
structure HttpConfig where
  timeout : Nat
  retries : Nat
  retryDelay : Nat
deriving Repr, DecidableEq

/-- The configuration value assembled by the configuration module (part_002). -/
structure Config where
  apiUrl : Str
  apiKey : Option Str
  projectId : Option Str
  http : HttpConfig
deriving Repr, DecidableEq

/-- Defaults from the configuration module: timeout 5000, retries 3,
retryDelay 1000. -/
def defaultHttp : HttpConfig := ⟨5000, 3, 1000⟩

/-- Default API base URL from the configuration module. -/
def defaultApiUrl : Str := str "http://localhost:3000"

/-- Default webhook path from the configuration module. -/
def defaultWebhookPath : Str := str "/webhook"

/-- A response produced by the `fetch` builtin. -/
structure FetchResp where
  ok : Bool
  status : Nat
  statusText : Str
  ctype : Option Str
  bodyText : Str
deriving Repr, DecidableEq

/-- The outcome of one `fetch` attempt: a thrown network error (with its
JavaScript error name and message) or a response. -/
inductive FetchOutcome where
  | netError : Str → Str → FetchOutcome
  | resp : FetchResp → FetchOutcome
deriving Repr, DecidableEq

/-- One issued `fetch` call, as recorded in the traces below: target URL,
method, the timeout option passed (if any) and the API-key header (if any). -/
structure FetchCall where
  url : Str
  method : Str
  timeout : Option Nat
  apiKeyHeader : Option Str
deriving Repr, DecidableEq

/-- Trace of the observable HTTP effects of an operation: the fetch calls it
issued and the backoff delays it scheduled, in order. -/
structure HttpTrace where
  calls : List FetchCall
  waits : List Nat
deriving Repr, DecidableEq

/-- Whitespace recognized while parsing JSON. -/
def isWsChar (c : Char) : Bool := c = ' ' || c = '\n' || c = '\t' || c = '\r'

/-- Drop leading JSON whitespace. -/
def skipWs : Str → Str
  | [] => []
  | c :: t => if isWsChar c then skipWs t else c :: t

/-- Consume a string literal body up to the closing quote (no escapes, which
none of the embedded payloads use). -/
def takeStringLit : Str → Option (Str × Str)
  | [] => none
  | c :: t =>
    if c = '"' then some ([], t)
    else
      match takeStringLit t with
      | some (s, rest) => some (c :: s, rest)
      | none => none

/-- Consume a maximal run of decimal digits. -/
def takeDigits : Str → Str × Str
  | [] => ([], [])
  | c :: t =>
    if c.isDigit then
      let (ds, rest) := takeDigits t
      (c :: ds, rest)
    else ([], c :: t)

/-- Numeric value of a digit run. -/
def digitsToNat (ds : Str) : Nat := ds.foldl (fun a c => a * 10 + (c.toNat - '0'.toNat)) 0

mutual

/-- Parse one JSON value; the fuel argument bounds nesting depth. -/
def parseJsonVal : Nat → Str → Option (Json × Str)
  | 0, _ => none
  | fuel + 1, input =>
    match skipWs input with
    | [] => none
    | c :: rest =>
      if c = '"' then
        (takeStringLit rest).map fun sr => (.jstr sr.1, sr.2)
      else if c = '\x7b' then
        match skipWs rest with
        | '\x7d' :: r => some (.jobj [], r)
        | r => (parseObjFields fuel r).map fun fr => (.jobj fr.1, fr.2)
      else if c = '[' then
        match skipWs rest with
        | ']' :: r => some (.jarr [], r)
        | r => (parseArrItems fuel r).map fun xr => (.jarr xr.1, xr.2)
      else if c = 't' then
        if (str "rue").isPrefixOf rest then some (.jbool true, rest.drop 3) else none
      else if c = 'f' then
        if (str "alse").isPrefixOf rest then some (.jbool false, rest.drop 4) else none
      else if c = 'n' then
        if (str "ull").isPrefixOf rest then some (.jnull, rest.drop 3) else none
      else if c = '-' then
        match takeDigits rest with
        | ([], _) => none
        | (ds, r) => some (.jnum (-(digitsToNat ds : Int)), r)
      else if c.isDigit then
        let (ds, r) := takeDigits (c :: rest)
        some (.jnum (digitsToNat ds), r)
      else none

/-- Parse one or more comma-separated object fields, consuming the closing
brace. -/
def parseObjFields : Nat → Str → Option (List (Str × Json) × Str)
  | 0, _ => none
  | fuel + 1, input =>
    match skipWs input with
    | '"' :: rest =>
      match takeStringLit rest with
      | none => none
      | some (k, r) =>
        match skipWs r with
        | ':' :: r' =>
          match parseJsonVal fuel r' with
          | none => none
          | some (v, r'') =>
            match skipWs r'' with
            | ',' :: r₃ => (parseObjFields fuel r₃).map fun fr => ((k, v) :: fr.1, fr.2)
            | '\x7d' :: r₃ => some ([(k, v)], r₃)
            | _ => none
        | _ => none
    | _ => none

/-- Parse one or more comma-separated array items, consuming the closing
bracket. -/
def parseArrItems : Nat → Str → Option (List Json × Str)
  | 0, _ => none
  | fuel + 1, input =>
    match parseJsonVal fuel input with
    | none => none
    | some (v, r) =>
      match skipWs r with
      | ',' :: r' => (parseArrItems fuel r').map fun xr => (v :: xr.1, xr.2)
      | ']' :: r' => some ([v], r')
      | _ => none

end

/-- Model of the JavaScript builtin `JSON.parse`, restricted to the grammar
the embedded payloads use (objects, arrays, escape-free strings, integers,
booleans, null). `none` models a thrown SyntaxError. -/
def jparse (s : Str) : Option Json :=
  match parseJsonVal (s.length + 1) s with
  | some (j, rest) => if (skipWs rest).isEmpty then some j else none
  | none => none

/-- Characters the `encodeURIComponent` builtin leaves unescaped
(alphanumerics and `-_.!~*'()`; code 39 is the apostrophe). -/
def uriUnreserved (c : Char) : Bool :=
  c.isAlphanum || c = '-' || c = '_' || c = '.' || c = '!' || c = '~' ||
    c = '*' || c = Char.ofNat 39 || c = '(' || c = ')'

/-- Upper-case hexadecimal digit. -/
def hexDigit (n : Nat) : Char :=
  if n < 10 then Char.ofNat ('0'.toNat + n) else Char.ofNat ('A'.toNat + n - 10)

/-- Model of the JavaScript builtin `encodeURIComponent` (exact for the
single-byte code points this development feeds it). -/
def encodeURIComponent : Str → Str
  | [] => []
  | c :: t =>
    (if uriUnreserved c then [c]
     else ['%', hexDigit (c.toNat / 16 % 16), hexDigit (c.toNat % 16)]) ++
      encodeURIComponent t

/-- The parsed-or-raw result of `BaseHandler.apiRequest`: a JSON body when the
content type declares JSON, otherwise the raw text. -/
inductive ApiData where
  | jsonData : Json → ApiData
  | textData : Str → ApiData
deriving Repr

/-- BaseHandler's rewrapping of a connection failure (BaseHandler.js lines
54–58): a TypeError mentioning fetch becomes a friendlier message, anything
else is rethrown as-is. -/
def wrapConnectError (apiUrl name msg : Str) : Str :=
  if name = str "TypeError" ∧ containsSub (str "fetch") msg then
    str "Failed to connect to API at " ++ apiUrl ++ str ". Please ensure the server is running."
  else msg

/-- Content-type test from BaseHandler.js line 49:
`contentType && contentType.includes('application/json')`. -/
def ctypeIsJson : Option Str → Bool
  | none => false
  | some ct => containsSub (str "application/json") ct

/-- `BaseHandler.apiRequest` (BaseHandler.js lines 19–60): builds headers
(API key header only when the key is truthy), issues exactly one `fetch` with
no timeout option, throws on a non-2xx response, parses JSON content types and
returns anything else as text. The oracle gives the outcome of the n-th fetch
issued; this function only ever consults attempt 0. The `http` settings of the
configuration are not consulted at all. -/
def baseApiRequestResult (cfg : Config) (oracle : Nat → FetchOutcome) :
    Except Str ApiData :=
  match oracle 0 with
  | .netError name msg => .error (wrapConnectError cfg.apiUrl name msg)
  | .resp r =>
    if !r.ok then
      .error (str "API request failed (" ++ natStr r.status ++ str "): " ++ r.bodyText)
    else if ctypeIsJson r.ctype then
      match jparse r.bodyText with
      | some j => .ok (.jsonData j)
      | none => .error (str "SyntaxError: unexpected JSON input")
    else .ok (.textData r.bodyText)

/-- The full `BaseHandler.apiRequest` including its observable trace: exactly
one fetch call is issued (with no timeout option and the API-key header only
when the key is truthy) and no delay is ever scheduled. -/
def baseApiRequest (cfg : Config) (endpoint : Str) (method : Str)
    (oracle : Nat → FetchOutcome) : Except Str ApiData × HttpTrace :=
  ( baseApiRequestResult cfg oracle
  , ⟨[{ url := cfg.apiUrl ++ endpoint
      , method := method
      , timeout := none
      , apiKeyHeader := if truthyStr cfg.apiKey then cfg.apiKey else none }], []⟩ )

/-- Tool arguments: a JavaScript object whose values may be explicitly
`undefined` (`some none` models a key present with value undefined). -/
abbrev ToolArgs := List (Str × Option Json)

/-- JavaScript property read `params[k]`: `none` for a missing key or an
explicitly-undefined value. -/
def objGet (params : ToolArgs) (k : Str) : Option Json :=
  match params.lookup k with
  | none => none
  | some v => v

/-- The keys a required-parameter check reports missing
(BaseHandler.validateParams line 66). -/
def missingKeys (params : ToolArgs) (required : List Str) : List Str :=
  required.filter fun k => (objGet params k).isNone

/-- The validation error message (BaseHandler.validateParams line 68). -/
def missingMsg (missing : List Str) : Str :=
  str "Missing required parameters: " ++ List.intercalate (str ", ") missing

/-- `BaseHandler.validateParams` (BaseHandler.js lines 65–70). -/
def validateParams (params : ToolArgs) (required : List Str) : Except Str Unit :=
  let missing := missingKeys params required
  if missing.isEmpty then .ok () else .error (missingMsg missing)

/-- `BaseHandler.getProjectEndpoint` (BaseHandler.js lines 126–128). -/
def getProjectEndpoint (projectId : Str) (path : Str) : Str :=
  str "/api/projects/" ++ encodeURIComponent projectId ++ path

/-- `BaseHandler.formatError` (BaseHandler.js lines 87–94). -/
def formatError (e : Str) (tool : Str) (now : Str) : Json :=
  .jobj [ (str "success", .jbool false)
        , (str "error", .jstr e)
        , (str "tool", .jstr tool)
        , (str "timestamp", .jstr now) ]

/-- The method names the portable ResponseBuilder class defines
(utils/ResponseBuilder.js): success, error and textResponse only. -/
def responseBuilderMethods : List Str := [str "success", str "error", str "textResponse"]

/-- NoteHandler invokes `this.responseBuilder.buildResponse(...)` on its
ResponseBuilder instance. That class defines none of its methods under this
name (see `responseBuilderMethods`), so by JavaScript semantics the property
evaluates to `undefined` and the call throws
`TypeError: this.responseBuilder.buildResponse is not a function`. -/
def respBuilderBuildResponse (_data : Option Json) (_tool : Str) : Except Str Json :=
  .error (str "this.responseBuilder.buildResponse is not a function")

/-- `NoteHandler.getNote` (NoteHandler.js lines 443–452): validates that `id`
is present, issues a GET for the note, then hands `result.data` to the
ResponseBuilder (whose `buildResponse` method does not exist, so this throws)
before assembling the success payload. The trace records the fetches made. -/
def noteGetNote (cfg : Config) (projectId : Json) (params : ToolArgs)
    (oracle : Nat → FetchOutcome) (now : Str) : Except Str Json × HttpTrace :=
  match validateParams params [str "id"] with
  | .error m => (.error m, ⟨[], []⟩)
  | .ok _ =>
    let idStr :=
      match objGet params (str "id") with
      | some v => jsToString v
      | none => str "undefined"
    let endpoint :=
      getProjectEndpoint (jsToString projectId) (str "/notes/" ++ encodeURIComponent idStr)
    match baseApiRequest cfg endpoint (str "GET") oracle with
    | (.error e, tr) => (.error e, tr)
    | (.ok d, tr) =>
      let result : Json := match d with | .jsonData j => j | .textData s => .jstr s
      match respBuilderBuildResponse (result.get (str "data")) (str "get_note") with
      | .error e => (.error e, tr)
      | .ok streamlined =>
        (.ok (.jobj [ (str "success", .jbool true)
                    , (str "data", (streamlined.get (str "data")).getD .jnull)
                    , (str "message", (streamlined.get (str "message")).getD .jnull)
                    , (str "timestamp", .jstr now) ]), tr)

/-- Tool names owned by NoteHandler (NoteHandler.js constructor). -/
def noteTools : List Str :=
  [ str "list_notes", str "get_note", str "create_note", str "update_note"
  , str "delete_note", str "generate_contexts", str "get_context_stats"
  , str "inspect_content", str "preview_update", str "validate_update"
  , str "suggest_patterns" ]

/-- Tool names owned by SearchHandler. -/
def searchTools : List Str := [str "search", str "graph_search"]

/-- Tool names owned by ProjectHandler. -/
def projectTools : List Str :=
  [str "list_projects", str "get_project_info", str "get_current_context"]

/-- Tool names owned by StatsHandler. -/
def statsTools : List Str :=
  [str "get_project_stats", str "get_system_stats", str "get_usage_stats", str "get_folder_stats"]

/-- Tool names owned by CrossReferenceHandler. -/
def crossReferenceTools : List Str :=
  [ str "add_wikilink", str "remove_wikilink", str "get_note_connections"
  , str "suggest_connections", str "validate_note_links", str "get_knowledge_base_health" ]

/-- `NoteHandler.handleTool` (NoteHandler.js lines 360–404): resolves the
project from the arguments or the session context, runs the tool branch, and
converts any thrown error to the uniform `formatError` shape. Only the
`get_note` branch is exercised by a theorem in this development; the other
branches delegate to sibling methods that no claim touches, and dispatching to
them is marked explicitly rather than modelled. -/
def noteHandleTool (cfg : Config) (oracle : Nat → FetchOutcome) (now : Str)
    (toolName : Str) (params : ToolArgs) (currentProject : Str) :
    Except Str Json × HttpTrace :=
  let projectId : Json :=
    if truthyJson (objGet params (str "projectId")) then (objGet params (str "projectId")).getD .jnull
    else .jstr currentProject
  let branch : Except Str Json × HttpTrace :=
    if toolName = str "get_note" then noteGetNote cfg projectId params oracle now
    else (.error (str "branch not modelled in this development"), ⟨[], []⟩)
  match branch with
  | (.ok r, tr) => (.ok r, tr)
  | (.error e, tr) => (.ok (formatError e toolName now), tr)

/-- A capability provider as seen by the dispatch router: the tool names it
claims via `canHandleTool`, and its `handleTool` method. -/
structure Handler where
  tools : List Str
  run : Str → ToolArgs → Str → Except Str Json × HttpTrace

/-- Placeholder body for handler branches no claim exercises (search, project,
stats and cross-reference tools): reaching one of these from a theorem below
would surface this marker, which never happens. -/
def unmodelledRun (_toolName : Str) (_params : ToolArgs) (_currentProject : Str) :
    Except Str Json × HttpTrace :=
  (.error (str "handler branch not modelled in this development"), ⟨[], []⟩)

/-- The server's handler registry in registration order (part_000
constructor): note, search, project, stats, crossReference. -/
def serverHandlers (cfg : Config) (oracle : Nat → FetchOutcome) (now : Str) : List Handler :=
  [ ⟨noteTools, noteHandleTool cfg oracle now⟩
  , ⟨searchTools, unmodelledRun⟩
  , ⟨projectTools, unmodelledRun⟩
  , ⟨statsTools, unmodelledRun⟩
  , ⟨crossReferenceTools, unmodelledRun⟩ ]

/-- One item of a protocol response envelope: the `type` field (always
`"text"`) and the JSON value passed to `JSON.stringify` for the text body. -/
structure ContentItem where
  itemType : Str
  text : Json
deriving Repr

/-- A protocol response envelope: content items plus the `isError` flag
(`false` models the flag being absent). -/
structure Envelope where
  content : List ContentItem
  isError : Bool
deriving Repr

/-- The error envelope the CallTool handler returns from its catch block
(part_000 lines 136–152). -/
def errorEnvelope (toolName e now : Str) : Envelope :=
  { content := [⟨str "text", .jobj [ (str "error", .jstr e)
                                   , (str "tool", .jstr toolName)
                                   , (str "timestamp", .jstr now) ]⟩]
  , isError := true }

/-- The CallTool request handler (part_000 lines 112–153): scan handlers in
registration order for the first whose `canHandleTool` accepts the name, wrap
its result as a text content item; when none claims the name, the thrown
`Unknown tool` error is caught and converted to an error-flagged envelope, as
is any error a handler throws. -/
def callToolHandler (handlers : List Handler) (toolName : Str) (args : ToolArgs)
    (currentProject : Str) (now : Str) : Envelope × HttpTrace :=
  match handlers.find? (fun h => h.tools.contains toolName) with
  | some h =>
    match h.run toolName args currentProject with
    | (.ok result, tr) => ({ content := [⟨str "text", result⟩], isError := false }, tr)
    | (.error e, tr) => (errorEnvelope toolName e now, tr)
  | none => (errorEnvelope toolName (str "Unknown tool: " ++ toolName) now, ⟨[], []⟩)

/-- The ListTools request handler (part_000 lines 98–109): each provider is
either without a `getTools` method (`none`, skipped by the guard), or provides
an enumeration that returns descriptors or throws. The loop pushes each
enumeration in order with no try/catch, so a thrown error propagates out of
the handler. -/
def listToolsHandler : List (Option (Except Str (List Json))) → Except Str (List Json)
  | [] => .ok []
  | none :: hs => listToolsHandler hs
  | some (.error e) :: _ => .error e
  | some (.ok ts) :: hs => (listToolsHandler hs).map fun rest => ts ++ rest

/-- One attempt of the client's `apiRequest` (part_001 lines 208–216): a
network error throws its message; a non-2xx response throws
`HTTP status: statusText`; otherwise the response is returned. -/
def perAttempt : FetchOutcome → Except Str FetchResp
  | .netError _ msg => .error msg
  | .resp r => if r.ok then .ok r else .error (str "HTTP " ++ natStr r.status ++ str ": " ++ r.statusText)

/-- The outcome of the client's retry loop: final result, number of fetch
attempts performed, and the backoff delays scheduled, in order. -/
structure RetryResult where
  result : Except Str FetchResp
  attempts : Nat
  waits : List Nat
deriving Repr, DecidableEq

/-- The client's retry loop (`KnowledgeAiMcpClient.apiRequest`, part_001 lines
206–227): starting from `attempt`, try the fetch; on failure increment the
counter, rethrow once it exceeds `retries`, otherwise wait `d × attempt` and
loop. The oracle gives each attempt's outcome. -/
def clientApiRequestGo (oracle : Nat → FetchOutcome) (retries d attempt : Nat)
    (waits : List Nat) : RetryResult :=
  match perAttempt (oracle attempt) with
  | .ok r => ⟨.ok r, attempt + 1, waits⟩
  | .error e =>
    if h : attempt + 1 > retries then ⟨.error e, attempt + 1, waits⟩
    else clientApiRequestGo oracle retries d (attempt + 1) (waits ++ [d * (attempt + 1)])
termination_by retries + 1 - attempt
decreasing_by omega

/-- The client's `apiRequest` entry point: runs the retry loop with the
configured retry count and base delay. -/
def clientApiRequest (cfg : Config) (oracle : Nat → FetchOutcome) : RetryResult :=
  clientApiRequestGo oracle cfg.http.retries cfg.http.retryDelay 0 []

/-- Event kinds emitted by the client's webhook receiver. -/
inductive EventKind where
  | noteCreated
  | noteUpdated
  | noteDeleted
  | webhookReceived
deriving Repr, DecidableEq

/-- The observable outcome of one inbound webhook request: HTTP status,
response body (none models `res.end()` with empty body) and the emitted
events in order. -/
structure WebhookResult where
  status : Nat
  resBody : Option Json
  events : List (EventKind × Option Json)
deriving Repr

/-- `KnowledgeAiMcpClient.handleWebhook` (part_001 lines 111–142): parse the
buffered body; on parse failure respond 400 with no events. A parsed `null`
also lands in the catch (reading `.event` of null throws) and responds 400.
Otherwise switch on `data.event` for the per-kind emission, then emit the
generic `webhookReceived` event, and respond 200 `{success:true}`. -/
def handleWebhook (body : Str) : WebhookResult :=
  match jparse body with
  | none => ⟨400, none, []⟩
  | some data =>
    if data == Json.jnull then ⟨400, none, []⟩
    else
      let ev := data.get (str "event")
      let domain : List (EventKind × Option Json) :=
        if ev == some (.jstr (str "created")) then [(.noteCreated, data.get (str "data"))]
        else if ev == some (.jstr (str "updated")) then [(.noteUpdated, data.get (str "data"))]
        else if ev == some (.jstr (str "deleted")) then [(.noteDeleted, data.get (str "data"))]
        else []
      ⟨200, some (.jobj [(str "success", .jbool true)]), domain ++ [(.webhookReceived, some data)]⟩

/-- The webhook receiver's request routing (part_001 lines 87–94): only a POST
to the configured path reaches `handleWebhook`; any other method or path gets
an empty 404. -/
def routeWebhookRequest (cfgPath : Str) (method url : Str) (body : Str) : WebhookResult :=
  if method = str "POST" ∧ url = cfgPath then handleWebhook body
  else ⟨404, none, []⟩

/-- Fixture: the end-to-end session configuration with credential
`employee-myproject-secret123` and no explicit project. -/
def e2eConfig : Config :=
  { apiUrl := defaultApiUrl
  , apiKey := some (str "employee-myproject-secret123")
  , projectId := none
  , http := defaultHttp }

/-- Fixture: a mocked remote API whose every request succeeds with the JSON
body `{data:{id:5,title:"x"}}`. -/
def mockNoteOracle : Nat → FetchOutcome := fun _ =>
  .resp { ok := true, status := 200, statusText := str "OK"
        , ctype := some (str "application/json")
        , bodyText := str "\x7b\"data\":\x7b\"id\":5,\"title\":\"x\"\x7d\x7d" }

section Lemmas

/-- Counting dashes after a leading dash. -/
theorem count_cons_dash (cs : Str) : ('-' :: cs).count '-' = cs.count '-' + 1 := by
  simp

/-- Counting dashes after a leading non-dash. -/
theorem count_cons_ne (c : Char) (cs : Str) (hc : ¬ c = '-') :
    (c :: cs).count '-' = cs.count '-' := by
  simp [List.count_cons, Ne.symm hc]

/-- First-dash position step: leading dash. -/
theorem firstDashIdx_cons_dash (cs : Str) : firstDashIdx ('-' :: cs) = 0 := by
  simp [firstDashIdx]

/-- First-dash position step: leading non-dash, dash further on. -/
theorem firstDashIdx_cons_ne (c : Char) (cs : Str) (hc : ¬ c = '-')
    (h : 0 ≤ firstDashIdx cs) : firstDashIdx (c :: cs) = firstDashIdx cs + 1 := by
  simp only [firstDashIdx, if_neg hc]
  rw [if_neg (by omega)]

/-- Last-dash position step: dash further on. -/
theorem lastDashIdx_cons_pos (c : Char) (cs : Str) (h : 0 ≤ lastDashIdx cs) :
    lastDashIdx (c :: cs) = lastDashIdx cs + 1 := by
  simp only [lastDashIdx]
  rw [if_pos h]

/-- Last-dash position step: leading dash, none further on. -/
theorem lastDashIdx_cons_dash_neg (cs : Str) (h : lastDashIdx cs < 0) :
    lastDashIdx ('-' :: cs) = 0 := by
  simp only [lastDashIdx]
  rw [if_neg (by omega)]
  simp

/-- Splitting on dashes yields one more piece than there are dashes. -/
theorem splitDash_length (l : Str) : (splitDash l).length = l.count '-' + 1 := by
  induction l with
  | nil => simp [splitDash]
  | cons c cs ih =>
    by_cases h : c = '-'
    · subst h
      simp [splitDash, count_cons_dash, ih]
    · rw [count_cons_ne c cs h]
      simp only [splitDash, if_neg h]
      cases h' : splitDash cs with
      | nil => rw [h'] at ih; simp at ih
      | cons g gs =>
        rw [h'] at ih
        simpa using ih

/-- A string containing no dash has no first-dash position. -/
theorem firstDashIdx_of_count_zero (l : Str) (h : l.count '-' = 0) :
    firstDashIdx l = -1 := by
  induction l with
  | nil => rfl
  | cons c cs ih =>
    by_cases hc : c = '-'
    · subst hc; rw [count_cons_dash] at h; omega
    · rw [count_cons_ne c cs hc] at h
      simp only [firstDashIdx, if_neg hc, ih h]
      rw [if_pos (by omega)]

/-- A string containing no dash has no last-dash position. -/
theorem lastDashIdx_of_count_zero (l : Str) (h : l.count '-' = 0) :
    lastDashIdx l = -1 := by
  induction l with
  | nil => rfl
  | cons c cs ih =>
    by_cases hc : c = '-'
    · subst hc; rw [count_cons_dash] at h; omega
    · rw [count_cons_ne c cs hc] at h
      simp only [lastDashIdx, ih h]
      rw [if_neg (by omega), if_neg hc]

/-- A string containing a dash has a valid first-dash position. -/
theorem firstDashIdx_nonneg (l : Str) (h : 1 ≤ l.count '-') :
    0 ≤ firstDashIdx l := by
  induction l with
  | nil => simp at h
  | cons c cs ih =>
    by_cases hc : c = '-'
    · subst hc; rw [firstDashIdx_cons_dash]
    · rw [count_cons_ne c cs hc] at h
      rw [firstDashIdx_cons_ne c cs hc (ih h)]
      have := ih h
      omega

/-- A string containing a dash has a valid last-dash position. -/
theorem lastDashIdx_nonneg (l : Str) (h : 1 ≤ l.count '-') :
    0 ≤ lastDashIdx l := by
  induction l with
  | nil => simp at h
  | cons c cs ih =>
    by_cases h2 : 0 ≤ lastDashIdx cs
    · rw [lastDashIdx_cons_pos c cs h2]; omega
    · by_cases hc : c = '-'
      · subst hc; rw [lastDashIdx_cons_dash_neg cs (by omega)]
      · rw [count_cons_ne c cs hc] at h
        exact absurd (ih h) h2

/-- With at least two dashes, the first dash lies strictly before the last. -/
theorem firstDashIdx_lt_lastDashIdx (l : Str) (h : 2 ≤ l.count '-') :
    firstDashIdx l < lastDashIdx l := by
  induction l with
  | nil => simp at h
  | cons c cs ih =>
    by_cases hc : c = '-'
    · subst hc
      rw [count_cons_dash] at h
      have h1 : 1 ≤ cs.count '-' := by omega
      have h2 := lastDashIdx_nonneg cs h1
      rw [firstDashIdx_cons_dash, lastDashIdx_cons_pos _ cs h2]
      omega
    · rw [count_cons_ne c cs hc] at h
      have h3 := ih h
      have h4 := firstDashIdx_nonneg cs (by omega)
      have h5 := lastDashIdx_nonneg cs (by omega)
      rw [firstDashIdx_cons_ne c cs hc h4, lastDashIdx_cons_pos c cs h5]
      omega

/-- The last-dash position is below the string length. -/
theorem lastDashIdx_lt_length (l : Str) : lastDashIdx l < l.length := by
  induction l with
  | nil => simp [lastDashIdx]
  | cons c cs ih =>
    by_cases h2 : 0 ≤ lastDashIdx cs
    · rw [lastDashIdx_cons_pos c cs h2]
      simp only [List.length_cons]
      omega
    · simp only [lastDashIdx, List.length_cons]
      rw [if_neg (by omega)]
      by_cases hc : c = '-'
      · rw [if_pos hc]; omega
      · rw [if_neg hc]; omega

/-- With exactly one dash, first and last dash coincide. -/
theorem firstDashIdx_eq_lastDashIdx (l : Str) (h : l.count '-' = 1) :
    firstDashIdx l = lastDashIdx l := by
  induction l with
  | nil => simp at h
  | cons c cs ih =>
    by_cases hc : c = '-'
    · subst hc
      rw [count_cons_dash] at h
      have h0 : cs.count '-' = 0 := by omega
      rw [firstDashIdx_cons_dash, lastDashIdx_cons_dash_neg cs
        (by rw [lastDashIdx_of_count_zero cs h0]; omega)]
    · rw [count_cons_ne c cs hc] at h
      have h2 := ih h
      have h3 := firstDashIdx_nonneg cs (by omega)
      have h4 := lastDashIdx_nonneg cs (by omega)
      rw [firstDashIdx_cons_ne c cs hc h3, lastDashIdx_cons_pos c cs h4, h2]

/-- The first split piece is exactly the text before the first dash. -/
theorem splitDash_head (l : Str) (h : 1 ≤ l.count '-') :
    (splitDash l).getD 0 [] = l.take (firstDashIdx l).toNat := by
  induction l with
  | nil => simp at h
  | cons c cs ih =>
    by_cases hc : c = '-'
    · subst hc
      rw [firstDashIdx_cons_dash]
      simp [splitDash]
    · rw [count_cons_ne c cs hc] at h
      have h2 := ih h
      have h3 := firstDashIdx_nonneg cs h
      rw [firstDashIdx_cons_ne c cs hc h3]
      cases h' : splitDash cs with
      | nil =>
        have := splitDash_length cs
        rw [h'] at this; simp at this
      | cons g gs =>
        rw [h'] at h2
        simp only [splitDash, if_neg hc, h']
        have h5 : (firstDashIdx cs + 1).toNat = (firstDashIdx cs).toNat + 1 := by omega
        rw [h5]
        simp only [List.take_succ_cons, List.getD_cons_zero] at h2 ⊢
        rw [h2]

/-- With exactly two dashes, the middle split piece is exactly the text
strictly between the first and the last dash. -/
theorem splitDash_mid (l : Str) (h : l.count '-' = 2) :
    (splitDash l).getD 1 [] =
      (l.take (lastDashIdx l).toNat).drop ((firstDashIdx l).toNat + 1) := by
  induction l with
  | nil => simp at h
  | cons c cs ih =>
    by_cases hc : c = '-'
    · subst hc
      rw [count_cons_dash] at h
      have h1 : cs.count '-' = 1 := by omega
      have h2 := splitDash_head cs (by omega)
      have h3 := firstDashIdx_eq_lastDashIdx cs h1
      have h4 := lastDashIdx_nonneg cs (by omega)
      rw [firstDashIdx_cons_dash, lastDashIdx_cons_pos _ cs h4]
      have h7 : (lastDashIdx cs + 1).toNat = (lastDashIdx cs).toNat + 1 := by omega
      rw [h7]
      simp only [splitDash, eq_self_iff_true, if_true, List.getD_cons_succ,
        List.take_succ_cons, Int.toNat_zero, Nat.zero_add, List.drop_succ_cons,
        List.drop_zero]
      rw [h2, h3]
    · rw [count_cons_ne c cs hc] at h
      have h2 := ih h
      have h3 := firstDashIdx_nonneg cs (by omega)
      have h4 := lastDashIdx_nonneg cs (by omega)
      rw [firstDashIdx_cons_ne c cs hc h3, lastDashIdx_cons_pos c cs h4]
      have h7 : (lastDashIdx cs + 1).toNat = (lastDashIdx cs).toNat + 1 := by omega
      have h8 : (firstDashIdx cs + 1).toNat = (firstDashIdx cs).toNat + 1 := by omega
      rw [h7, h8]
      cases h' : splitDash cs with
      | nil =>
        have := splitDash_length cs
        rw [h'] at this; simp at this
      | cons g gs =>
        rw [h'] at h2
        simp only [splitDash, if_neg hc, h']
        simp only [List.getD_cons_succ, List.take_succ_cons, List.drop_succ_cons] at h2 ⊢
        rw [h2]

/-- In-range substring extraction reduces to take-then-drop. -/
theorem jsSubstring_eq (s : Str) (a b : Int) (h0 : 0 ≤ a) (hab : a ≤ b)
    (hb : b ≤ s.length) : jsSubstring s a b = (s.take b.toNat).drop a.toNat := by
  unfold jsSubstring
  have h1 : min (max a 0).toNat s.length = a.toNat := by omega
  have h2 : min (max b 0).toNat s.length = b.toNat := by omega
  rw [h1, h2]
  have h3 : max a.toNat b.toNat = b.toNat := by omega
  have h4 : min a.toNat b.toNat = a.toNat := by omega
  rw [h3, h4]

end Lemmas

/-- C2 fails as stated: the two identity-resolution implementations disagree
on credentials with more than three segments. On `"a-b-c-d"` the substring
strictly between the first and last dash is `"b-c"` (and the client returns
it), but the server's `extractProjectFromApiKey` returns the second
dash-delimited segment `"b"`. -/
theorem C2_counterexample :
    3 ≤ (splitDash (str "a-b-c-d")).length ∧
    specProjectOfCredential (str "a-b-c-d") = str "b-c" ∧
    getProjectFromApiKey none (some (str "a-b-c-d")) = .ok (str "b-c") ∧
    extractProjectFromApiKey (some (str "a-b-c-d")) = some (str "b") ∧
    serverResolveProject none (some (str "a-b-c-d")) = .ok (str "b") ∧
    str "b" ≠ str "b-c" := by decide

/-- C2 amended: for every credential with at least three dash-delimited
segments and no explicit project, the client's `getProjectFromApiKey` returns
the substring strictly between the first and last dash, while the server's
`extractProjectFromApiKey` returns the second dash-delimited segment; the two
agree exactly on three-segment credentials, where both yield the middle
segment. -/
theorem C2_project_extraction (k : Str) (h : 3 ≤ (splitDash k).length) :
    getProjectFromApiKey none (some k) = .ok (specProjectOfCredential k) ∧
    extractProjectFromApiKey (some k) = some ((splitDash k).getD 1 []) ∧
    ((splitDash k).length = 3 → specProjectOfCredential k = (splitDash k).getD 1 []) := by
  have hl := splitDash_length k
  have hc : 2 ≤ k.count '-' := by omega
  have hk : k ≠ [] := by
    intro e
    subst e
    simp at hc
  have hkem : k.isEmpty = false := by simpa [List.isEmpty_iff] using hk
  have hfi := firstDashIdx_nonneg k (by omega)
  have hlt := firstDashIdx_lt_lastDashIdx k hc
  have hne : firstDashIdx k ≠ lastDashIdx k := by omega
  refine ⟨?_, ?_, ?_⟩
  · simp only [getProjectFromApiKey, truthyStr, hkem, Option.getD_some, Bool.not_false,
      Bool.not_true, Bool.false_eq_true, if_false]
    rw [if_pos h, if_pos ⟨hne, hfi⟩]
    rfl
  · simp only [extractProjectFromApiKey, truthyStr, hkem, Option.getD_some, Bool.not_false,
      Bool.not_true, Bool.false_eq_true, if_false]
    rw [if_pos h]
  · intro h3
    have hcc : k.count '-' = 2 := by omega
    have hll := lastDashIdx_lt_length k
    unfold specProjectOfCredential
    rw [jsSubstring_eq k _ _ (by omega) (by omega) (by omega)]
    have h8 : (firstDashIdx k + 1).toNat = (firstDashIdx k).toNat + 1 := by omega
    rw [h8]
    exact (splitDash_mid k hcc).symm

/-- Witness for C2: on the three-segment credential `"role-proj-secret"` both
implementations return the middle segment `"proj"`. -/
theorem C2_witness :
    getProjectFromApiKey none (some (str "role-proj-secret")) =
      .ok (specProjectOfCredential (str "role-proj-secret")) ∧
    extractProjectFromApiKey (some (str "role-proj-secret")) =
      some ((splitDash (str "role-proj-secret")).getD 1 []) ∧
    specProjectOfCredential (str "role-proj-secret") = str "proj" := by
  have h := C2_project_extraction (str "role-proj-secret") (by decide)
  exact ⟨h.1, h.2.1, by decide⟩

/-- C5 fails as stated for the client implementation: with no explicit
project and the dash-less credential `"abc"`, the client's identity
resolution does not throw a configuration error; it silently returns the
fallback project identifier `"default"`. -/
theorem C5_counterexample :
    getProjectFromApiKey none (some (str "abc")) = .ok (str "default") ∧
    ∀ e, getProjectFromApiKey none (some (str "abc")) ≠ .error e := by
  refine ⟨by decide, fun e h => ?_⟩
  have h1 : getProjectFromApiKey none (some (str "abc")) = .ok (str "default") := by decide
  rw [h1] at h
  exact Except.noConfusion h

/-- C5 amended: with no explicit project, the server fails at construction
when the credential is missing or has fewer than three dash-delimited
segments; the client fails only when the credential is missing entirely, and
for a present credential with no dash it silently falls back to the literal
project identifier `"default"`. -/
theorem C5_startup_failure (k : Str) :
    serverResolveProject none none =
      .error (str "No valid project found. Set PROJECT_ID or use API key format: role-project-secret") ∧
    ((splitDash k).length < 3 →
      serverResolveProject none (some k) =
        .error (str "No valid project found. Set PROJECT_ID or use API key format: role-project-secret")) ∧
    getProjectFromApiKey none none = .error (str "No API key configured") ∧
    (k ≠ [] → k.count '-' = 0 → getProjectFromApiKey none (some k) = .ok (str "default")) := by
  refine ⟨by decide, ?_, by decide, ?_⟩
  · intro hlen
    by_cases hk : k = []
    · subst hk; decide
    · have hkem : k.isEmpty = false := by simpa [List.isEmpty_iff] using hk
      have h3 : ¬ (splitDash k).length ≥ 3 := by omega
      simp [serverResolveProject, extractProjectFromApiKey, truthyStr, hkem, h3]
  · intro hk h0
    have hkem : k.isEmpty = false := by simpa [List.isEmpty_iff] using hk
    have h3 : ¬ (splitDash k).length ≥ 3 := by
      have := splitDash_length k
      omega
    simp [getProjectFromApiKey, truthyStr, hkem, h3]

/-- Witness for C5: on the dash-less credential `"abc"` the server throws at
construction while the client returns `"default"`. -/
theorem C5_witness :
    serverResolveProject none (some (str "abc")) =
      .error (str "No valid project found. Set PROJECT_ID or use API key format: role-project-secret") ∧
    getProjectFromApiKey none (some (str "abc")) = .ok (str "default") :=
  ⟨(C5_startup_failure (str "abc")).2.1 (by decide),
   (C5_startup_failure (str "abc")).2.2.2 (by decide) (by decide)⟩

/-- C4 fails as stated: the ListTools handler has no try/catch, so with a
single provider whose enumeration throws, the aggregated listing propagates
the error instead of returning an empty list. -/
theorem C4_counterexample :
    listToolsHandler [some (.error (str "boom"))] = .error (str "boom") ∧
    listToolsHandler [some (.error (str "boom"))] ≠ .ok [] := by
  refine ⟨rfl, fun hcontra => ?_⟩
  rw [show listToolsHandler [some (.error (str "boom"))] = .error (str "boom") from rfl]
    at hcontra
  exact Except.noConfusion hcontra

/-- C4 amended: providers without a `getTools` method are skipped, but if any
provider's enumeration throws, the ListTools handler fails with an error (the
first one raised in registration order) and in particular never returns any
tool list, empty or otherwise. -/
theorem C4_list_tools (hs : List (Option (Except Str (List Json))))
    (h : ∃ x ∈ hs, ∃ e, x = some (.error e)) :
    (∃ e, listToolsHandler hs = .error e) ∧ ∀ ts, listToolsHandler hs ≠ .ok ts := by
  induction hs with
  | nil =>
    rcases h with ⟨x, hx, _⟩
    exact absurd hx (List.not_mem_nil x)
  | cons x hs ih =>
    rcases h with ⟨x₀, hx₀, e₀, he₀⟩
    rcases List.mem_cons.mp hx₀ with heq | hmem
    · subst he₀
      rw [← heq]
      exact ⟨⟨e₀, rfl⟩, fun ts hcontra => Except.noConfusion hcontra⟩
    · cases x with
      | none =>
        have hrec := ih ⟨x₀, hmem, e₀, he₀⟩
        exact ⟨hrec.1, hrec.2⟩
      | some ex =>
        cases ex with
        | error e₂ => exact ⟨⟨e₂, rfl⟩, fun ts hcontra => Except.noConfusion hcontra⟩
        | ok ts₂ =>
          have hrec := ih ⟨x₀, hmem, e₀, he₀⟩
          rcases hrec.1 with ⟨e₁, he₁⟩
          refine ⟨⟨e₁, ?_⟩, fun ts hcontra => ?_⟩
          · show (listToolsHandler hs).map _ = _
            rw [he₁]
            rfl
          · have : (listToolsHandler hs).map (ts₂ ++ ·) = .ok ts := hcontra
            rw [he₁] at this
            exact Except.noConfusion this

/-- Witness for C4: the singleton throwing provider yields the propagated
error, not a list. -/
theorem C4_witness :
    (∃ e, listToolsHandler [some (.error (str "boom")), some (.ok [])] = .error e) ∧
    ∀ ts, listToolsHandler [some (.error (str "boom")), some (.ok [])] ≠ .ok ts :=
  C4_list_tools [some (.error (str "boom")), some (.ok [])]
    ⟨some (.error (str "boom")), by simp, str "boom", rfl⟩

/-- Stepping lemma: a successful attempt ends the client retry loop. -/
theorem clientGo_ok (oracle : Nat → FetchOutcome) (retries d attempt : Nat)
    (waits : List Nat) (r : FetchResp) (h : perAttempt (oracle attempt) = .ok r) :
    clientApiRequestGo oracle retries d attempt waits = ⟨.ok r, attempt + 1, waits⟩ := by
  unfold clientApiRequestGo
  rw [h]

/-- Stepping lemma: a failed attempt with budget left waits `d × (attempt+1)`
and retries. -/
theorem clientGo_retry (oracle : Nat → FetchOutcome) (retries d attempt : Nat)
    (waits : List Nat) (e : Str) (h : perAttempt (oracle attempt) = .error e)
    (h2 : attempt + 1 ≤ retries) :
    clientApiRequestGo oracle retries d attempt waits =
      clientApiRequestGo oracle retries d (attempt + 1) (waits ++ [d * (attempt + 1)]) := by
  conv_lhs => unfold clientApiRequestGo
  rw [h]
  dsimp only
  rw [dif_neg (by omega)]

/-- Stepping lemma: a failed attempt with the budget exhausted rethrows. -/
theorem clientGo_exhausted (oracle : Nat → FetchOutcome) (retries d attempt : Nat)
    (waits : List Nat) (e : Str) (h : perAttempt (oracle attempt) = .error e)
    (h2 : retries < attempt + 1) :
    clientApiRequestGo oracle retries d attempt waits = ⟨.error e, attempt + 1, waits⟩ := by
  conv_lhs => unfold clientApiRequestGo
  rw [h]
  dsimp only
  rw [dif_pos (by omega)]

/-- C6: with the retry limit configured to 3, an endpoint that fails its first
two attempts and succeeds on the third makes `apiRequest` succeed after
exactly 3 attempts with linear waits `d×1, d×2`; an endpoint that always
fails makes it perform exactly 4 attempts, schedule waits `d×1, d×2, d×3`,
and fail with the error of the final attempt. -/
theorem C6_retry_policy (d t : Nat) (apiUrl : Str) (apiKey projectId : Option Str)
    (r : FetchResp) (hr : r.ok = true) (em : Nat → Str) :
    clientApiRequest ⟨apiUrl, apiKey, projectId, ⟨t, 3, d⟩⟩
        (fun n => if n < 2 then .netError (str "TypeError") (em n) else .resp r) =
      ⟨.ok r, 3, [d * 1, d * 2]⟩ ∧
    clientApiRequest ⟨apiUrl, apiKey, projectId, ⟨t, 3, d⟩⟩
        (fun n => .netError (str "TypeError") (em n)) =
      ⟨.error (em 3), 4, [d * 1, d * 2, d * 3]⟩ := by
  constructor
  · show clientApiRequestGo _ 3 d 0 [] = _
    rw [clientGo_retry _ _ _ _ _ (em 0) (by simp [perAttempt]) (by omega)]
    rw [clientGo_retry _ _ _ _ _ (em 1) (by simp [perAttempt]) (by omega)]
    rw [clientGo_ok _ _ _ _ _ r (by simp [perAttempt, hr])]
    simp
  · show clientApiRequestGo _ 3 d 0 [] = _
    rw [clientGo_retry _ _ _ _ _ (em 0) (by simp [perAttempt]) (by omega)]
    rw [clientGo_retry _ _ _ _ _ (em 1) (by simp [perAttempt]) (by omega)]
    rw [clientGo_retry _ _ _ _ _ (em 2) (by simp [perAttempt]) (by omega)]
    rw [clientGo_exhausted _ _ _ _ _ (em 3) (by simp [perAttempt]) (by omega)]
    simp

/-- Witness for C6 at the configuration defaults (retryDelay 1000). -/
theorem C6_witness :
    clientApiRequest ⟨defaultApiUrl, none, none, ⟨5000, 3, 1000⟩⟩
        (fun n => if n < 2 then .netError (str "TypeError") (str "fetch failed")
                  else .resp ⟨true, 200, str "OK", none, []⟩) =
      ⟨.ok ⟨true, 200, str "OK", none, []⟩, 3, [1000 * 1, 1000 * 2]⟩ ∧
    clientApiRequest ⟨defaultApiUrl, none, none, ⟨5000, 3, 1000⟩⟩
        (fun _ => .netError (str "TypeError") (str "fetch failed")) =
      ⟨.error (str "fetch failed"), 4, [1000 * 1, 1000 * 2, 1000 * 3]⟩ :=
  C6_retry_policy 1000 5000 defaultApiUrl none none ⟨true, 200, str "OK", none, []⟩ rfl
    (fun _ => str "fetch failed")

/-- C7: a CallTool request naming a tool no registered handler claims never
throws: it returns an error-flagged envelope whose JSON body names the exact
tool, carries the error message, and the timestamp, with no fetch issued. -/
theorem C7_unknown_tool (cfg : Config) (oracle : Nat → FetchOutcome) (now : Str)
    (toolName : Str) (args : ToolArgs) (ctx : Str)
    (h : ∀ hd ∈ serverHandlers cfg oracle now, toolName ∉ hd.tools) :
    callToolHandler (serverHandlers cfg oracle now) toolName args ctx now =
      (errorEnvelope toolName (str "Unknown tool: " ++ toolName) now, ⟨[], []⟩) ∧
    (errorEnvelope toolName (str "Unknown tool: " ++ toolName) now).isError = true ∧
    (errorEnvelope toolName (str "Unknown tool: " ++ toolName) now).content =
      [⟨str "text", .jobj [ (str "error", .jstr (str "Unknown tool: " ++ toolName))
                          , (str "tool", .jstr toolName)
                          , (str "timestamp", .jstr now) ]⟩] := by
  have hf : (serverHandlers cfg oracle now).find? (fun hd => hd.tools.contains toolName) =
      none := by
    rw [List.find?_eq_none]
    intro x hx
    simpa using h x hx
  refine ⟨?_, rfl, rfl⟩
  unfold callToolHandler
  rw [hf]

/-- Witness for C7 on the unclaimed name `mystery_tool`. -/
theorem C7_witness :
    callToolHandler
        (serverHandlers ⟨defaultApiUrl, none, none, defaultHttp⟩
          (fun _ => .netError [] []) (str "T"))
        (str "mystery_tool") [] [] (str "T") =
      (errorEnvelope (str "mystery_tool") (str "Unknown tool: mystery_tool") (str "T"),
        ⟨[], []⟩) := by
  have h := C7_unknown_tool ⟨defaultApiUrl, none, none, defaultHttp⟩
    (fun _ => .netError [] []) (str "T") (str "mystery_tool") [] []
    (by
      intro hd hm
      simp only [serverHandlers, List.mem_cons, List.not_mem_nil, or_false] at hm
      rcases hm with rfl | rfl | rfl | rfl | rfl <;> decide)
  exact h.1

/-- C8: a POST to the configured path whose body is the created-event
envelope emits `noteCreated` with the payload and then the generic
`webhookReceived` event, in that order, and responds 200 `{success:true}`;
a POST whose body fails to parse emits nothing and responds 400 with an
empty body; any other method or path gets an empty 404. -/
theorem C8_webhook_receiver (cfgPath body method url : Str) :
    routeWebhookRequest cfgPath (str "POST") cfgPath
        (str "\x7b\"event\":\"created\",\"data\":\x7b\"id\":1\x7d\x7d") =
      ⟨200, some (.jobj [(str "success", .jbool true)]),
        [ (.noteCreated, some (.jobj [(str "id", .jnum 1)]))
        , (.webhookReceived,
            some (.jobj [ (str "event", .jstr (str "created"))
                        , (str "data", .jobj [(str "id", .jnum 1)]) ]))]⟩ ∧
    (jparse body = none →
      routeWebhookRequest cfgPath (str "POST") cfgPath body = ⟨400, none, []⟩) ∧
    (¬ (method = str "POST" ∧ url = cfgPath) →
      routeWebhookRequest cfgPath method url body = ⟨404, none, []⟩) := by
  refine ⟨?_, ?_, ?_⟩
  · unfold routeWebhookRequest
    rw [if_pos ⟨rfl, rfl⟩]
    rfl
  · intro hp
    unfold routeWebhookRequest
    rw [if_pos ⟨rfl, rfl⟩]
    unfold handleWebhook
    rw [hp]
  · intro hn
    unfold routeWebhookRequest
    rw [if_neg hn]

/-- Witness for C8: an unparseable POST body gets 400 with no events, and a
GET to the webhook path gets 404. -/
theorem C8_witness :
    routeWebhookRequest defaultWebhookPath (str "POST") defaultWebhookPath
        (str "not json") = ⟨400, none, []⟩ ∧
    routeWebhookRequest defaultWebhookPath (str "GET") defaultWebhookPath
        (str "") = ⟨404, none, []⟩ := by
  have h := C8_webhook_receiver defaultWebhookPath (str "not json") (str "GET")
    defaultWebhookPath
  exact ⟨h.2.1 rfl, h.2.2 (by decide)⟩

/-- C3 fails as stated: a syntactically valid body whose `event` field is the
unrecognized `"renamed"` is answered with 200 (not any 4xx status); the
receiver emits only the generic `webhookReceived` event. -/
theorem C3_counterexample :
    jparse (str "\x7b\"event\":\"renamed\",\"data\":\x7b\"id\":1\x7d\x7d") =
      some (.jobj [ (str "event", .jstr (str "renamed"))
                  , (str "data", .jobj [(str "id", .jnum 1)]) ]) ∧
    handleWebhook (str "\x7b\"event\":\"renamed\",\"data\":\x7b\"id\":1\x7d\x7d") =
      ⟨200, some (.jobj [(str "success", .jbool true)]),
        [(.webhookReceived,
          some (.jobj [ (str "event", .jstr (str "renamed"))
                      , (str "data", .jobj [(str "id", .jnum 1)]) ]))]⟩ ∧
    ¬ (400 ≤ (handleWebhook
          (str "\x7b\"event\":\"renamed\",\"data\":\x7b\"id\":1\x7d\x7d")).status ∧
        (handleWebhook
          (str "\x7b\"event\":\"renamed\",\"data\":\x7b\"id\":1\x7d\x7d")).status < 500) := by
  refine ⟨rfl, rfl, ?_⟩
  intro hcontra
  have h2 : (handleWebhook
      (str "\x7b\"event\":\"renamed\",\"data\":\x7b\"id\":1\x7d\x7d")).status = 200 := rfl
  omega

/-- C3 amended: for every syntactically valid JSON body that is not the
literal `null` and whose `event` field matches none of `created`, `updated`,
`deleted` (the strict string comparisons the switch performs), the receiver
responds 200 `{success:true}` and emits exactly the generic `webhookReceived`
event — no per-kind domain event and no client-error status. -/
theorem C3_unrecognized_event (body : Str) (data : Json)
    (hp : jparse body = some data) (hn : (data == Json.jnull) = false)
    (h1 : (data.get (str "event") == some (Json.jstr (str "created"))) = false)
    (h2 : (data.get (str "event") == some (Json.jstr (str "updated"))) = false)
    (h3 : (data.get (str "event") == some (Json.jstr (str "deleted"))) = false) :
    handleWebhook body =
      ⟨200, some (.jobj [(str "success", .jbool true)]),
        [(.webhookReceived, some data)]⟩ := by
  unfold handleWebhook
  rw [hp]
  simp only [hn, h1, h2, h3, Bool.false_eq_true, if_false, List.nil_append]

/-- Witness for C3 on the `renamed` body. -/
theorem C3_witness :
    handleWebhook (str "\x7b\"event\":\"renamed\",\"data\":\x7b\"id\":1\x7d\x7d") =
      ⟨200, some (.jobj [(str "success", .jbool true)]),
        [(.webhookReceived,
          some (.jobj [ (str "event", .jstr (str "renamed"))
                      , (str "data", .jobj [(str "id", .jnum 1)]) ]))]⟩ :=
  C3_unrecognized_event _ _ rfl rfl rfl rfl rfl

/-- Shared helper: a nonempty missing-key list makes validateParams throw the
message naming all of them. -/
theorem validateParams_error (params : ToolArgs) (required : List Str)
    (h : missingKeys params required ≠ []) :
    validateParams params required = .error (missingMsg (missingKeys params required)) := by
  have hne : (missingKeys params required).isEmpty = false := by
    cases hm : missingKeys params required with
    | nil => exact absurd hm h
    | cons a t => rfl
  unfold validateParams
  simp [hne]

/-- C9: whenever at least one key declared required is absent (or explicitly
undefined) in the arguments, validation fails with the message naming exactly
the missing keys; for `get_note` without `id` the provider fails with that
message and its trace shows no fetch was issued. -/
theorem C9_validate_required (params : ToolArgs) (required : List Str)
    (cfg : Config) (pid : Json) (oracle : Nat → FetchOutcome) (now : Str)
    (h : missingKeys params required ≠ []) :
    validateParams params required = .error (missingMsg (missingKeys params required)) ∧
    (missingKeys params [str "id"] ≠ [] →
      noteGetNote cfg pid params oracle now =
        (.error (missingMsg (missingKeys params [str "id"])), ⟨[], []⟩)) := by
  refine ⟨validateParams_error params required h, fun h2 => ?_⟩
  unfold noteGetNote
  rw [validateParams_error params [str "id"] h2]

/-- Witness for C9: `get_note` with empty arguments is missing `id`, fails
with the message naming it, and issues no fetch. -/
theorem C9_witness :
    validateParams [] [str "id"] = .error (missingMsg [str "id"]) ∧
    noteGetNote ⟨defaultApiUrl, none, none, defaultHttp⟩ (.jstr (str "p")) []
        (fun _ => .netError [] []) (str "T") =
      (.error (missingMsg [str "id"]), ⟨[], []⟩) := by
  have h := C9_validate_required [] [str "id"] ⟨defaultApiUrl, none, none, defaultHttp⟩
    (.jstr (str "p")) (fun _ => .netError [] []) (str "T") (by decide)
  exact ⟨h.1, h.2 (by decide)⟩

/-- C10: the handlers' shared `BaseHandler.apiRequest` issues exactly one
fetch (with no timeout option), schedules no backoff delay, fails immediately
on a network error or non-2xx response, and behaves identically under any
retry/timeout configuration. -/
theorem C10_base_single_fetch (cfg : Config) (endpoint method : Str)
    (oracle : Nat → FetchOutcome) :
    (baseApiRequest cfg endpoint method oracle).2.calls.length = 1 ∧
    (baseApiRequest cfg endpoint method oracle).2.waits = [] ∧
    (∀ c ∈ (baseApiRequest cfg endpoint method oracle).2.calls, c.timeout = none) ∧
    (∀ name msg, oracle 0 = .netError name msg →
      (baseApiRequest cfg endpoint method oracle).1 =
        .error (wrapConnectError cfg.apiUrl name msg)) ∧
    (∀ r, oracle 0 = .resp r → r.ok = false →
      (baseApiRequest cfg endpoint method oracle).1 =
        .error (str "API request failed (" ++ natStr r.status ++ str "): " ++ r.bodyText)) ∧
    (∀ http' : HttpConfig,
      baseApiRequest ⟨cfg.apiUrl, cfg.apiKey, cfg.projectId, http'⟩ endpoint method oracle =
        baseApiRequest cfg endpoint method oracle) := by
  refine ⟨rfl, rfl, ?_, ?_, ?_, ?_⟩
  · intro c hc
    simp only [baseApiRequest, List.mem_singleton] at hc
    rw [hc]
  · intro name msg ho
    simp [baseApiRequest, baseApiRequestResult, ho]
  · intro r ho hok
    simp [baseApiRequest, baseApiRequestResult, ho, hok]
  · intro http'
    rfl

/-- Witness for C10: a network failure surfaces immediately after the single
fetch. -/
theorem C10_witness :
    (baseApiRequest ⟨defaultApiUrl, none, none, defaultHttp⟩ (str "/health") (str "GET")
        (fun _ => .netError (str "TypeError") (str "fetch failed"))).2.calls.length = 1 ∧
    (baseApiRequest ⟨defaultApiUrl, none, none, defaultHttp⟩ (str "/health") (str "GET")
        (fun _ => .netError (str "TypeError") (str "fetch failed"))).1 =
      .error (wrapConnectError defaultApiUrl (str "TypeError") (str "fetch failed")) := by
  have h := C10_base_single_fetch ⟨defaultApiUrl, none, none, defaultHttp⟩ (str "/health")
    (str "GET") (fun _ => .netError (str "TypeError") (str "fetch failed"))
  exact ⟨h.1, h.2.2.2.1 _ _ rfl⟩

/-- C1, evaluated on the code as written: the session credential resolves to
project `myproject` and the mocked remote API does return the note, yet the
`get_note` tool cannot produce it: `NoteHandler.getNote` calls the missing
`ResponseBuilder.buildResponse`, the thrown TypeError is converted by
`handleTool` into the uniform error payload, and CallTool wraps that payload
in a success-shaped envelope (no isError flag) that does not contain the
note. -/
theorem C1_get_note_end_to_end :
    serverResolveProject none (some (str "employee-myproject-secret123")) =
      .ok (str "myproject") ∧
    jparse (str "\x7b\"data\":\x7b\"id\":5,\"title\":\"x\"\x7d\x7d") =
      some (.jobj [(str "data",
        .jobj [(str "id", .jnum 5), (str "title", .jstr (str "x"))])]) ∧
    (callToolHandler (serverHandlers e2eConfig mockNoteOracle (str "T")) (str "get_note")
        [(str "id", some (.jnum 5))] (str "myproject") (str "T")).1 =
      { content := [⟨str "text",
          formatError (str "this.responseBuilder.buildResponse is not a function")
            (str "get_note") (str "T")⟩]
      , isError := false } ∧
    (formatError (str "this.responseBuilder.buildResponse is not a function")
        (str "get_note") (str "T")).get (str "data") = none ∧
    (formatError (str "this.responseBuilder.buildResponse is not a function")
        (str "get_note") (str "T")).get (str "title") = none := by
  refine ⟨by decide, rfl, rfl, rfl, rfl⟩

end PortableMcp
